import Mathlib

/-!
Verification development for the kitsune-shuttle deployment wrapper.

The repository consists of a single source file, `src/lib.rs`, containing the
shuttle startup function `axum`.  It builds a hard-coded `Configuration`
(reading only the `DOMAIN` secret from the secret store), runs database
migrations, constructs the kitsune services (Fetcher, Webfinger, the various
builder-based services, MastodonMapper) passing `NoopCache` handles
throughout, spawns `config.job_workers` job worker tasks, and returns the
router.

The kitsune crate itself (NoopCache, Webfinger, PostResolver, the job worker
loop) is a dependency whose code is not part of this repository; components
of it that claims depend on are modelled from the specification and marked as
such in their doc comments.
-/

/- String literal constants (all string literals of the development live
here, mirroring the literals appearing in src/lib.rs). -/

/-- The secret name looked up in the secret store in src/lib.rs line 28. -/
def domainSecretKey : String := "DOMAIN"

/-- The error message produced when the DOMAIN secret is absent
(src/lib.rs line 30). -/
def domainNotSetMsg : String := "Domain not set"

/-- The literal passed to PathBuf.from for the upload directory
(src/lib.rs line 37). -/
def uploadsDirLit : String := "uploads"

/-- Empty string literal, used for the unused Configuration fields. -/
def emptyStr : String := ""

/-! ## Cache model

The cache trait of the kitsune crate has operations get, set and delete.
The only variant this program ever constructs is `NoopCache` (src/lib.rs
lines 51-54, 88). -/

/-- Modelled from the spec: the kitsune crate NoopCache (its code is not
under src/; only its construction sites are).  Per the spec, the no-op
variant implements get, set and delete as pure pass-throughs that never
store anything and always report absence on get.  In Rust it is a unit
struct, so its state carries no data. -/
structure NoopCache (K V : Type) where

/-- Modelled from the spec: NoopCache.get always reports absence. -/
def NoopCache.get {K V : Type} (c : NoopCache K V) (k : K) : Option V :=
  none

/-- Modelled from the spec: NoopCache.set stores nothing, leaving the cache
unchanged. -/
def NoopCache.set {K V : Type} (c : NoopCache K V) (k : K) (v : V)
    (ttl : Nat) : NoopCache K V :=
  c

/-- Modelled from the spec: NoopCache.delete changes nothing. -/
def NoopCache.delete {K V : Type} (c : NoopCache K V) (k : K) :
    NoopCache K V :=
  c

/-! ## The startup function

Shallow embedding of the `axum` function of src/lib.rs.  Its effectful
collaborators (the secret store, `Migrator::up`, the fallible service
builders) are passed in as explicit inputs; the function returns the ordered
list of effects it performed together with its result. -/

/-- Which cache backend a component was handed.  The kitsune cache trait has
storing variants besides the no-op one; the startup code only ever
constructs `NoopCache`. -/
inductive CacheBackend
  | noop
  | storing
deriving DecidableEq, Repr

/-- The kitsune `Configuration` struct as populated in src/lib.rs lines
26-38.  `PathBuf` fields are modelled as strings, `NonZeroUsize` as `Nat`. -/
structure Configuration where
  database_url : String
  domain : String
  frontend_dir : String
  job_workers : Nat
  port : Nat
  redis_url : String
  prometheus_port : Nat
  search_index_server : String
  search_servers : List String
  upload_dir : String
deriving DecidableEq, Repr

/-- The shuttle secret store: a lookup table of named secrets. -/
structure SecretStore where
  secrets : List (String × String)
deriving DecidableEq, Repr

/-- `SecretStore::get`: look a secret up by name. -/
def SecretStore.get (s : SecretStore) (k : String) : Option String :=
  (s.secrets.find? (fun p => p.fst == k)).map Prod.snd

/-- The `Fetcher` handle as constructed in src/lib.rs lines 48-53: we record
which cache backend each of its two cache arguments is. -/
structure Fetcher where
  postCache : CacheBackend
  userCache : CacheBackend
deriving DecidableEq, Repr

/-- The `Webfinger` handle as constructed in src/lib.rs line 54: we record
which cache backend its cache argument is. -/
structure Webfinger where
  cache : CacheBackend
deriving DecidableEq, Repr

/-- The `MastodonMapper` handle as constructed in src/lib.rs lines 86-90: we
record which cache backend its `mastodon_cache` argument is. -/
structure MastodonMapper where
  mastodonCache : CacheBackend
deriving DecidableEq, Repr

/-- The `Zustand` application state assembled in src/lib.rs lines 92-106,
restricted to the fields the claims are about. -/
structure Zustand where
  config : Configuration
  fetcher : Fetcher
  mastodonMapper : MastodonMapper
  webfinger : Webfinger
deriving DecidableEq, Repr

/-- Names of the service values constructed by the startup function, in the
order they appear in src/lib.rs. -/
inductive ServiceName
  | noopSearchService
  | fetcherService
  | webfingerService
  | accountService
  | oauth2Service
  | postResolverService
  | postService
  | timelineService
  | userService
  | mastodonMapperService
deriving DecidableEq, Repr

/-- Effects performed by the startup function, in program order:
`runMigrations` models the `Migrator::up` call (src/lib.rs line 42),
`constructService` the construction of a service value, `spawnJobWorker`
one `tokio::spawn(kitsune::job::run(state.clone()))` call (src/lib.rs line
109), and `buildRouter` the `kitsune::http::router(state)` call (src/lib.rs
line 112). -/
inductive Effect
  | runMigrations
  | constructService (s : ServiceName)
  | spawnJobWorker
  | buildRouter
deriving DecidableEq, Repr

deriving instance DecidableEq for Except

/-- The effectful collaborators of the startup function, passed in as
explicit inputs: the secret store, the outcome of `Migrator::up`, and the
outcomes of the six fallible service builders (in source order: account,
oauth2, post, timeline, user, mastodon mapper).  Error payloads are the
message strings of the corresponding `anyhow` errors. -/
structure StartupEnv where
  secretStore : SecretStore
  migrationResult : Except String Unit
  accountBuild : Except String Unit
  oauth2Build : Except String Unit
  postBuild : Except String Unit
  timelineBuild : Except String Unit
  userBuild : Except String Unit
  mastodonBuild : Except String Unit
deriving DecidableEq, Repr

/-- Shallow embedding of the startup function `axum` of src/lib.rs lines
25-115.  Returns the ordered list of effects performed together with either
the error that aborted startup (the `?` operators in the source) or the
assembled `Zustand` state; a returned state means the router was built and
returned.  Mirrors the source order: DOMAIN secret lookup inside the
`Configuration` literal, then migrations, then service construction, then
the worker spawn loop, then the router. -/
def axum (env : StartupEnv) : List Effect × Except String Zustand :=
  match env.secretStore.get domainSecretKey with
  | none => ([], Except.error domainNotSetMsg)
  | some domain =>
    let config : Configuration :=
      { database_url := emptyStr
        domain := domain
        frontend_dir := emptyStr
        job_workers := 5
        port := 0
        redis_url := emptyStr
        prometheus_port := 0
        search_index_server := emptyStr
        search_servers := []
        upload_dir := uploadsDirLit }
    match env.migrationResult with
    | Except.error e => ([Effect.runMigrations], Except.error e)
    | Except.ok _ =>
      let fetcher : Fetcher :=
        { postCache := CacheBackend.noop, userCache := CacheBackend.noop }
      let webfinger : Webfinger := { cache := CacheBackend.noop }
      let eff0 : List Effect :=
        [Effect.runMigrations,
         Effect.constructService ServiceName.noopSearchService,
         Effect.constructService ServiceName.fetcherService,
         Effect.constructService ServiceName.webfingerService]
      match env.accountBuild with
      | Except.error e => (eff0, Except.error e)
      | Except.ok _ =>
        let eff1 := eff0 ++ [Effect.constructService ServiceName.accountService]
        match env.oauth2Build with
        | Except.error e => (eff1, Except.error e)
        | Except.ok _ =>
          let eff2 := eff1 ++
            [Effect.constructService ServiceName.oauth2Service,
             Effect.constructService ServiceName.postResolverService]
          match env.postBuild with
          | Except.error e => (eff2, Except.error e)
          | Except.ok _ =>
            let eff3 := eff2 ++ [Effect.constructService ServiceName.postService]
            match env.timelineBuild with
            | Except.error e => (eff3, Except.error e)
            | Except.ok _ =>
              let eff4 := eff3 ++ [Effect.constructService ServiceName.timelineService]
              match env.userBuild with
              | Except.error e => (eff4, Except.error e)
              | Except.ok _ =>
                let eff5 := eff4 ++ [Effect.constructService ServiceName.userService]
                match env.mastodonBuild with
                | Except.error e => (eff5, Except.error e)
                | Except.ok _ =>
                  let mastodonMapper : MastodonMapper :=
                    { mastodonCache := CacheBackend.noop }
                  let state : Zustand :=
                    { config := config
                      fetcher := fetcher
                      mastodonMapper := mastodonMapper
                      webfinger := webfinger }
                  let eff6 := eff5 ++
                    [Effect.constructService ServiceName.mastodonMapperService] ++
                    List.replicate config.job_workers Effect.spawnJobWorker ++
                    [Effect.buildRouter]
                  (eff6, Except.ok state)

/-! ## Identity resolver (Webfinger) model

The Webfinger resolution logic lives in the kitsune crate; src/lib.rs only
constructs the handle (line 54).  The resolver behaviour is modelled from
the specification. -/

/-- The link relation marking the canonical profile representation in a
discovery descriptor. -/
def selfRel : String := "self"

/-- The separator of a mention identifier, used when a mention is kept as
literal text. -/
def atSign : String := "@"

/-- An actor URI, with the domain it is embedded in kept explicit. -/
structure ActorUri where
  domain : String
  path : String
deriving DecidableEq, Repr

/-- A typed link of a discovery descriptor response. -/
structure WebfingerLink where
  rel : String
  href : ActorUri
deriving DecidableEq, Repr

/-- Errors of identity resolution, per the spec: InvalidIdentifier for a
malformed identifier, DomainUnreachable for connection or timeout failure of
the discovery request, NoSelfLink when the descriptor holds no valid profile
link (including the anti-spoofing rejection). -/
inductive WebfingerError
  | InvalidIdentifier
  | DomainUnreachable
  | NoSelfLink
deriving DecidableEq, Repr

/-- Modelled from the spec: the resolve operation of the kitsune Webfinger
component (its code is not under src/; only the constructor call is).  The
identifier is given already split into user and domain; the outcome of the
HTTPS discovery request is passed as input: an error for an unreachable
domain, or the parsed descriptor link list.  The resolver extracts the link
whose relation marks the canonical profile representation and enforces the
anti-spoofing invariant: the domain embedded in the resolved actor URI must
match the requested domain, a mismatch being rejected as NoSelfLink even
though the HTTP call succeeded. -/
def Webfinger.resolve (user domain : String)
    (discovery : Except Unit (List WebfingerLink)) :
    Except WebfingerError ActorUri :=
  match discovery with
  | Except.error _ => Except.error WebfingerError.DomainUnreachable
  | Except.ok links =>
    match links.find? (fun l => l.rel == selfRel) with
    | none => Except.error WebfingerError.NoSelfLink
    | some l =>
      if l.href.domain == domain then Except.ok l.href
      else Except.error WebfingerError.NoSelfLink

/-! ## Post resolver model

The post resolution logic lives in the kitsune crate; src/lib.rs only
constructs the handle (line 66).  Its behaviour is modelled from the
specification. -/

/-- A token of scanned post text: either plain text or a mention
`@user@domain`. -/
inductive PostToken
  | text (s : String)
  | mention (user domain : String)
deriving DecidableEq, Repr

/-- A span of a resolved post: plain text (which is also how an unresolved
mention is retained, as its literal text) or a resolved mention carrying the
resolved actor. -/
inductive PostSpan
  | text (s : String)
  | mention (user domain : String) (actor : ActorUri)
deriving DecidableEq, Repr

/-- The literal text of a mention token, used when the mention stays
unresolved. -/
def mentionLiteral (user domain : String) : String :=
  atSign ++ user ++ atSign ++ domain

/-- Modelled from the spec: the unique mention identifiers of scanned post
text — repeated mentions of the same identifier are deduplicated to a
single resolution attempt. -/
def mentionIdents (tokens : List PostToken) : List (String × String) :=
  (tokens.filterMap (fun t =>
    match t with
    | PostToken.mention u d => some (u, d)
    | PostToken.text _ => none)).dedup

/-- Modelled from the spec: the outcome of the per-identifier resolution
pipeline (identity resolver then fetcher, passed in as `resolver`) for each
unique identifier; `none` records a failed resolution. -/
def resolveIdents (resolver : String → String → Except String ActorUri)
    (tokens : List PostToken) : List ((String × String) × Option ActorUri) :=
  (mentionIdents tokens).map (fun p => (p, (resolver p.fst p.snd).toOption))

/-- Modelled from the spec: assembling the span for one token from the
resolution outcomes: plain text stays text, a resolved mention becomes a
mention span, and a mention whose resolution failed is retained as its
literal text. -/
def renderToken (resolved : List ((String × String) × Option ActorUri)) :
    PostToken → PostSpan
  | PostToken.text s => PostSpan.text s
  | PostToken.mention u d =>
    match (resolved.find? (fun q => q.fst.fst == u && q.fst.snd == d)).bind
        (fun q => q.snd) with
    | some actor => PostSpan.mention u d actor
    | none => PostSpan.text (mentionLiteral u d)

/-- Modelled from the spec: the resolve operation of the kitsune
PostResolver (its code is not under src/; only the constructor call is).
Failure of a single mention is non-fatal: the mention is retained as
literal text in the span list and the call as a whole still succeeds. -/
def PostResolver.resolve (resolver : String → String → Except String ActorUri)
    (tokens : List PostToken) : Except String (List PostSpan) :=
  Except.ok (tokens.map (renderToken (resolveIdents resolver tokens)))

/-! ## Job dispatcher model

The job worker loop `kitsune::job::run` lives in the kitsune crate;
src/lib.rs only spawns it (line 109).  Its per-job behaviour is modelled
from the specification as a state machine. -/

/-- The state of a Job per the spec data model. -/
inductive JobState
  | queued
  | running
  | completed
  | failed
deriving DecidableEq, Repr

/-- A Job, per the spec data model: id, attempt count, run-after timestamp
and state (the kind tag and payload play no role in the claims about the
state machine). -/
structure Job where
  id : Nat
  attempts : Nat
  runAfter : Nat
  state : JobState
deriving DecidableEq, Repr

/-- Modelled from the spec: the exponential retry backoff,
`base_backoff * 2 ^ attempt` capped at a maximum interval. -/
def backoffDelay (base cap attempt : Nat) : Nat :=
  min (base * 2 ^ attempt) cap

/-- Modelled from the spec: a worker claiming a Job.  Only a Queued job
whose run-after timestamp is due can be claimed; the claim is the atomic
state transition Queued to Running. -/
def claimJob (now : Nat) (j : Job) : Option Job :=
  if j.state = JobState.queued ∧ j.runAfter ≤ now then
    some { j with state := JobState.running }
  else
    none

/-- Modelled from the spec: the worker finishing the handler invocation of
a claimed (Running) job.  On success the job transitions to Completed.  On
failure the attempt count is incremented; if still within the configured
maximum the job is re-queued with the backoff delay, otherwise it
transitions to the terminal Failed state. -/
def finishJob (maxRetries base cap now : Nat) (j : Job) (success : Bool) :
    Option Job :=
  if j.state = JobState.running then
    if success then
      some { j with state := JobState.completed }
    else if j.attempts + 1 ≤ maxRetries then
      some { j with
        state := JobState.queued
        attempts := j.attempts + 1
        runAfter := now + backoffDelay base cap (j.attempts + 1) }
    else
      some { j with state := JobState.failed, attempts := j.attempts + 1 }
  else
    none

/-- An action a worker can perform on a job. -/
inductive JobAction
  | claim (now : Nat)
  | finish (maxRetries base cap now : Nat) (success : Bool)
deriving DecidableEq, Repr

/-- One worker step on a job: either a claim attempt or finishing the
handler of a claimed job.  `none` means the action does not apply to the
job in its current state (in particular, the job is not claimable). -/
def jobStep (a : JobAction) (j : Job) : Option Job :=
  match a with
  | JobAction.claim now => claimJob now j
  | JobAction.finish maxRetries base cap now success =>
    finishJob maxRetries base cap now j success

/-- The allowed edges of the job state machine per the spec:
Queued to Running, and Running to Completed, Queued (retry) or Failed. -/
def allowedJobTransition : JobState → JobState → Bool
  | JobState.queued, JobState.running => true
  | JobState.running, JobState.completed => true
  | JobState.running, JobState.queued => true
  | JobState.running, JobState.failed => true
  | _, _ => false

/-- Run a sequence of worker actions on a job; an inapplicable action
leaves the job unchanged. -/
def runJobActions (as : List JobAction) (j : Job) : Job :=
  as.foldl (fun j a => (jobStep a j).getD j) j

/-! ## Concrete inputs used by witnesses and counterexamples -/

/-- A concrete domain value for witness environments. -/
def exampleDomain : String := "example.com"

/-- A concrete migration error message for witness environments. -/
def migrationErrMsg : String := "migration failed"

/-- A startup environment with the DOMAIN secret present and every
collaborator succeeding. -/
def okEnv : StartupEnv :=
  { secretStore := { secrets := [(domainSecretKey, exampleDomain)] }
    migrationResult := Except.ok ()
    accountBuild := Except.ok ()
    oauth2Build := Except.ok ()
    postBuild := Except.ok ()
    timelineBuild := Except.ok ()
    userBuild := Except.ok ()
    mastodonBuild := Except.ok () }

/-- A startup environment whose secret store holds no secrets. -/
def emptyEnv : StartupEnv :=
  { okEnv with secretStore := { secrets := [] } }

/-- A startup environment whose migration step fails. -/
def failMigEnv : StartupEnv :=
  { okEnv with migrationResult := Except.error migrationErrMsg }

/-- A concrete no-op cache over Nat keys and values. -/
def noopNatCache : NoopCache Nat Nat := {}

/-- A running job that has used up its retry budget of 3. -/
def exhaustedJob : Job :=
  { id := 1, attempts := 3, runAfter := 0, state := JobState.running }

/-- The terminal form of `exhaustedJob` after its final failure. -/
def failedJob : Job :=
  { id := 1, attempts := 4, runAfter := 0, state := JobState.failed }

/-- The path component of the concrete actor URIs used in witnesses. -/
def alicePath : String := "/users/alice"

/-- A concrete requested user name for witnesses. -/
def aliceUser : String := "alice"

/-- A concrete second user name for witnesses. -/
def bobUser : String := "bob"

/-- A concrete unreachable domain for witnesses. -/
def unreachableDomain : String := "unreachable.example"

/-- A concrete spoofing domain, differing from the requested domain. -/
def spoofDomain : String := "evil.example"

/-- A concrete error message for a failed resolution in witnesses. -/
def unreachableErrMsg : String := "domain unreachable"

/-- A concrete actor URI on the requested domain. -/
def aliceActor : ActorUri := { domain := exampleDomain, path := alicePath }

/-- A concrete actor URI whose domain differs from the requested one. -/
def spoofActor : ActorUri := { domain := spoofDomain, path := alicePath }

/-- A well-formed descriptor link list whose self link points at a foreign
domain. -/
def spoofLinks : List WebfingerLink :=
  [{ rel := selfRel, href := spoofActor }]

/-- Leading text of the witness post. -/
def helloText : String := "hello "

/-- Middle text of the witness post. -/
def andText : String := " and "

/-- A concrete resolution pipeline: alice at example.com resolves, every
other identifier fails. -/
def demoResolver (u d : String) : Except String ActorUri :=
  if u == aliceUser && d == exampleDomain then Except.ok aliceActor
  else Except.error unreachableErrMsg

/-- The witness post token list: two mentions, the second of which cannot
be resolved. -/
def demoTokens : List PostToken :=
  [PostToken.text helloText,
   PostToken.mention aliceUser exampleDomain,
   PostToken.text andText,
   PostToken.mention bobUser unreachableDomain]

/-! ## Helper definitions and lemmas -/

/-- The `Configuration` value the startup function builds, as a function of
the resolved DOMAIN secret (the only non-constant field). -/
def axumConfig (d : String) : Configuration :=
  { database_url := emptyStr
    domain := d
    frontend_dir := emptyStr
    job_workers := 5
    port := 0
    redis_url := emptyStr
    prometheus_port := 0
    search_index_server := emptyStr
    search_servers := []
    upload_dir := uploadsDirLit }

/-- The `Zustand` state the startup function returns on success. -/
def axumSuccessState (d : String) : Zustand :=
  { config := axumConfig d
    fetcher := { postCache := CacheBackend.noop, userCache := CacheBackend.noop }
    mastodonMapper := { mastodonCache := CacheBackend.noop }
    webfinger := { cache := CacheBackend.noop } }

/-- The full effect trace of a successful startup. -/
def axumSuccessEffects : List Effect :=
  [Effect.runMigrations,
   Effect.constructService ServiceName.noopSearchService,
   Effect.constructService ServiceName.fetcherService,
   Effect.constructService ServiceName.webfingerService,
   Effect.constructService ServiceName.accountService,
   Effect.constructService ServiceName.oauth2Service,
   Effect.constructService ServiceName.postResolverService,
   Effect.constructService ServiceName.postService,
   Effect.constructService ServiceName.timelineService,
   Effect.constructService ServiceName.userService,
   Effect.constructService ServiceName.mastodonMapperService] ++
  List.replicate 5 Effect.spawnJobWorker ++ [Effect.buildRouter]

/-- Inversion for a successful startup: success requires the DOMAIN secret,
and then the state and the effect trace are fully determined. -/
theorem axum_ok_shape (env : StartupEnv) (fx : List Effect) (s : Zustand)
    (h : axum env = (fx, Except.ok s)) :
    ∃ d, env.secretStore.get domainSecretKey = some d ∧
      s = axumSuccessState d ∧ fx = axumSuccessEffects := by
  rcases hd : env.secretStore.get domainSecretKey with _ | d <;>
    rcases hm : env.migrationResult with em | um <;>
    rcases h1 : env.accountBuild with e1 | u1 <;>
    rcases h2 : env.oauth2Build with e2 | u2 <;>
    rcases h3 : env.postBuild with e3 | u3 <;>
    rcases h4 : env.timelineBuild with e4 | u4 <;>
    rcases h5 : env.userBuild with e5 | u5 <;>
    rcases h6 : env.mastodonBuild with e6 | u6 <;>
    simp [axum, hd, hm, h1, h2, h3, h4, h5, h6] at h
  exact ⟨d, rfl, h.2.symm, h.1.symm⟩

/-- A failed job admits no further worker step: it can neither be claimed
nor finished. -/
theorem jobStep_of_failed (a : JobAction) (j : Job)
    (h : j.state = JobState.failed) : jobStep a j = none := by
  cases a with
  | claim now => simp [jobStep, claimJob, h]
  | finish maxRetries base cap now success => simp [jobStep, finishJob, h]

/-- A failed job is untouched by any sequence of worker actions. -/
theorem runJobActions_of_failed (as : List JobAction) (j : Job)
    (h : j.state = JobState.failed) : runJobActions as j = j := by
  induction as with
  | nil => rfl
  | cons a as ih =>
    have hs : (jobStep a j).getD j = j := by
      rw [jobStep_of_failed a j h]
      rfl
    simp only [runJobActions, List.foldl_cons, hs]
    exact ih

/-- Every worker step follows an allowed edge of the job state machine. -/
theorem jobStep_allowed (a : JobAction) (j j2 : Job)
    (h : jobStep a j = some j2) :
    allowedJobTransition j.state j2.state = true := by
  cases a with
  | claim now =>
    by_cases hc : j.state = JobState.queued ∧ j.runAfter ≤ now
    · simp only [jobStep, claimJob, if_pos hc] at h
      injection h with h2
      subst h2
      rw [hc.1]
      rfl
    · simp only [jobStep, claimJob, if_neg hc] at h
      exact Option.noConfusion h
  | finish maxRetries base cap now success =>
    by_cases hr : j.state = JobState.running
    · simp only [jobStep, finishJob, if_pos hr] at h
      cases success with
      | true =>
        rw [if_pos rfl] at h
        injection h with h2
        subst h2
        rw [hr]
        rfl
      | false =>
        rw [if_neg Bool.false_ne_true] at h
        by_cases hle : j.attempts + 1 ≤ maxRetries
        · rw [if_pos hle] at h
          injection h with h2
          subst h2
          rw [hr]
          rfl
        · rw [if_neg hle] at h
          injection h with h2
          subst h2
          rw [hr]
          rfl
    · simp only [jobStep, finishJob, if_neg hr] at h
      exact Option.noConfusion h

/-- A running job whose handler fails with the retry budget exhausted
transitions to the terminal Failed state with the attempt count bumped. -/
theorem finishJob_exhausted (maxRetries base cap now : Nat) (j : Job)
    (hr : j.state = JobState.running) (hx : maxRetries < j.attempts + 1) :
    finishJob maxRetries base cap now j false =
      some { j with state := JobState.failed, attempts := j.attempts + 1 } := by
  unfold finishJob
  rw [if_pos hr, if_neg Bool.false_ne_true, if_neg (Nat.not_le.mpr hx)]

/-! ## Claim theorems -/

/-- Claim C1, counterexample: the claim that some configuration accepted by
the startup function yields a storing (non-noop) cache for the Fetcher, the
Webfinger resolver or the Mastodon mapper is false — no accepted input
does. -/
theorem axum_storing_cache_unselectable :
    ¬ ∃ (env : StartupEnv) (fx : List Effect) (s : Zustand),
      axum env = (fx, Except.ok s) ∧
      (s.fetcher.postCache ≠ CacheBackend.noop ∨
       s.fetcher.userCache ≠ CacheBackend.noop ∨
       s.webfinger.cache ≠ CacheBackend.noop ∨
       s.mastodonMapper.mastodonCache ≠ CacheBackend.noop) := by
  rintro ⟨env, fx, s, h, hor⟩
  obtain ⟨d, _, hs, _⟩ := axum_ok_shape env fx s h
  subst hs
  simp [axumSuccessState] at hor

/-- Claim C1, amended: no real caching backend is selectable — for every
input accepted by the startup function, the cache handles passed to the
Fetcher, the Webfinger resolver and the Mastodon mapper are all the no-op
variant. -/
theorem axum_caches_always_noop (env : StartupEnv) (fx : List Effect)
    (s : Zustand) (h : axum env = (fx, Except.ok s)) :
    s.fetcher.postCache = CacheBackend.noop ∧
    s.fetcher.userCache = CacheBackend.noop ∧
    s.webfinger.cache = CacheBackend.noop ∧
    s.mastodonMapper.mastodonCache = CacheBackend.noop := by
  obtain ⟨d, _, hs, _⟩ := axum_ok_shape env fx s h
  subst hs
  exact ⟨rfl, rfl, rfl, rfl⟩

/-- Witness for amended claim C1 at a concrete accepted input. -/
theorem axum_caches_always_noop_witness :
    axum okEnv = (axumSuccessEffects, Except.ok (axumSuccessState exampleDomain)) ∧
    ((axumSuccessState exampleDomain).fetcher.postCache = CacheBackend.noop ∧
     (axumSuccessState exampleDomain).fetcher.userCache = CacheBackend.noop ∧
     (axumSuccessState exampleDomain).webfinger.cache = CacheBackend.noop ∧
     (axumSuccessState exampleDomain).mastodonMapper.mastodonCache = CacheBackend.noop) :=
  ⟨rfl, axum_caches_always_noop okEnv axumSuccessEffects
    (axumSuccessState exampleDomain) rfl⟩

/-- Claim C2: for the no-op cache variant the program hands to every
component, set stores nothing, delete changes nothing, and get always
reports absence — also right after a set. -/
theorem noopCache_ops {K V : Type} (c : NoopCache K V) (k : K) (v : V)
    (ttl : Nat) :
    NoopCache.set c k v ttl = c ∧
    NoopCache.delete c k = c ∧
    NoopCache.get c k = (none : Option V) ∧
    NoopCache.get (NoopCache.set c k v ttl) k = (none : Option V) :=
  ⟨rfl, rfl, rfl, rfl⟩

/-- Claim C3, counterexample: for the cache store the components of this
program actually use (the no-op cache), a get immediately following a set
does not return the stored value. -/
theorem noopCache_set_get_counterexample :
    NoopCache.get (NoopCache.set noopNatCache 1 2 10) 1 ≠ some 2 := by
  intro h
  exact Option.noConfusion h

/-- Claim C3, amended: for the cache store the components of this program
use (the no-op cache), a get after a set returns absence — both immediately
and once the ttl has elapsed — so a stale value past expiry is never
returned. -/
theorem noopCache_get_after_set {K V : Type} (c : NoopCache K V) (k k2 : K)
    (v : V) (ttl : Nat) :
    NoopCache.get (NoopCache.set c k v ttl) k2 = (none : Option V) :=
  rfl

/-- Claim C4: the startup function spawns exactly `config.job_workers` job
worker tasks — the configured value 5 — the pool size being the one of the
configuration object consumed at startup. -/
theorem axum_spawns_job_workers (env : StartupEnv) (fx : List Effect)
    (s : Zustand) (h : axum env = (fx, Except.ok s)) :
    fx.count Effect.spawnJobWorker = s.config.job_workers ∧
    s.config.job_workers = 5 := by
  obtain ⟨d, _, hs, hf⟩ := axum_ok_shape env fx s h
  subst hs
  subst hf
  exact ⟨rfl, rfl⟩

/-- Witness for claim C4 at a concrete accepted input. -/
theorem axum_spawns_job_workers_witness :
    axum okEnv = (axumSuccessEffects, Except.ok (axumSuccessState exampleDomain)) ∧
    (axumSuccessEffects.count Effect.spawnJobWorker =
      (axumSuccessState exampleDomain).config.job_workers ∧
     (axumSuccessState exampleDomain).config.job_workers = 5) :=
  ⟨rfl, axum_spawns_job_workers okEnv axumSuccessEffects
    (axumSuccessState exampleDomain) rfl⟩

/-- Claim C8: a running job whose failure exhausts the retry budget
transitions to the terminal Failed state; a failed job admits no further
step (in particular it is never claimed again, by any action sequence); and
every step follows the allowed edges Queued to Running and Running to
Completed, Queued or Failed. -/
theorem job_state_machine :
    (∀ (maxRetries base cap now : Nat) (j : Job),
      j.state = JobState.running → maxRetries < j.attempts + 1 →
      finishJob maxRetries base cap now j false =
        some { j with state := JobState.failed, attempts := j.attempts + 1 }) ∧
    (∀ (a : JobAction) (j : Job), j.state = JobState.failed →
      jobStep a j = none) ∧
    (∀ (as : List JobAction) (j : Job), j.state = JobState.failed →
      runJobActions as j = j) ∧
    (∀ (a : JobAction) (j j2 : Job), jobStep a j = some j2 →
      allowedJobTransition j.state j2.state = true) :=
  ⟨finishJob_exhausted, jobStep_of_failed, runJobActions_of_failed,
    jobStep_allowed⟩

/-- Witness for claim C8 at concrete jobs and actions. -/
theorem job_state_machine_witness :
    (exhaustedJob.state = JobState.running ∧ 3 < exhaustedJob.attempts + 1 ∧
      finishJob 3 1 30 100 exhaustedJob false = some failedJob) ∧
    (failedJob.state = JobState.failed ∧
      jobStep (JobAction.claim 200) failedJob = none) ∧
    runJobActions [JobAction.claim 200, JobAction.finish 3 1 30 100 true]
      failedJob = failedJob ∧
    (jobStep (JobAction.finish 3 1 30 100 false) exhaustedJob = some failedJob ∧
      allowedJobTransition exhaustedJob.state failedJob.state = true) :=
  ⟨⟨rfl, by decide, job_state_machine.1 3 1 30 100 exhaustedJob rfl (by decide)⟩,
   ⟨rfl, job_state_machine.2.1 (JobAction.claim 200) failedJob rfl⟩,
   job_state_machine.2.2.1
     [JobAction.claim 200, JobAction.finish 3 1 30 100 true] failedJob rfl,
   ⟨by decide, job_state_machine.2.2.2 (JobAction.finish 3 1 30 100 false)
     exhaustedJob failedJob (by decide)⟩⟩

/-- Claim C9: if the DOMAIN secret is absent from the secret store, the
startup function returns the Domain-not-set error having performed no
effect at all: migrations were not run, no service was constructed, no job
worker was spawned and no router was produced. -/
theorem axum_missing_domain (env : StartupEnv)
    (h : env.secretStore.get domainSecretKey = none) :
    axum env = ([], Except.error domainNotSetMsg) := by
  simp [axum, h]

/-- Witness for claim C9 at a concrete secretless input. -/
theorem axum_missing_domain_witness :
    emptyEnv.secretStore.get domainSecretKey = none ∧
    axum emptyEnv = ([], Except.error domainNotSetMsg) :=
  ⟨rfl, axum_missing_domain emptyEnv rfl⟩

/-- Claim C10: if running database migrations fails, the startup function
returns the migration error with the migration attempt as its only effect —
no service is constructed, no job worker is spawned and no router is
built. -/
theorem axum_migration_failure (env : StartupEnv) (d e : String)
    (hd : env.secretStore.get domainSecretKey = some d)
    (hm : env.migrationResult = Except.error e) :
    axum env = ([Effect.runMigrations], Except.error e) ∧
    (∀ sn, Effect.constructService sn ∉ (axum env).1) ∧
    Effect.spawnJobWorker ∉ (axum env).1 ∧
    Effect.buildRouter ∉ (axum env).1 := by
  have hx : axum env = ([Effect.runMigrations], Except.error e) := by
    simp [axum, hd, hm]
  refine ⟨hx, ?_, ?_, ?_⟩ <;> rw [hx] <;> simp

/-- Witness for claim C10 at a concrete input whose migration step fails. -/
theorem axum_migration_failure_witness :
    failMigEnv.secretStore.get domainSecretKey = some exampleDomain ∧
    failMigEnv.migrationResult = Except.error migrationErrMsg ∧
    axum failMigEnv = ([Effect.runMigrations], Except.error migrationErrMsg) :=
  ⟨rfl, rfl,
    (axum_migration_failure failMigEnv exampleDomain migrationErrMsg rfl rfl).1⟩

/-- Any entry found in the resolution-outcome table for an identifier is
the outcome of resolving exactly that identifier. -/
theorem resolveIdents_lookup
    (resolver : String → String → Except String ActorUri)
    (tokens : List PostToken) (u d : String)
    (q : (String × String) × Option ActorUri)
    (h : (resolveIdents resolver tokens).find?
      (fun q => q.fst.fst == u && q.fst.snd == d) = some q) :
    q = ((u, d), (resolver u d).toOption) := by
  have hmem := List.mem_of_find?_eq_some h
  have hpred := List.find?_some h
  rw [resolveIdents, List.mem_map] at hmem
  obtain ⟨p, _, hq⟩ := hmem
  obtain ⟨pu, pd⟩ := p
  subst hq
  simp only [Bool.and_eq_true, beq_iff_eq] at hpred
  obtain ⟨hu, hd⟩ := hpred
  subst hu
  subst hd
  rfl

/-- Rendering a mention token whose resolution failed keeps it as its
literal text. -/
theorem renderToken_failed_mention
    (resolver : String → String → Except String ActorUri)
    (tokens : List PostToken) (u d : String)
    (hf : (resolver u d).toOption = none) :
    renderToken (resolveIdents resolver tokens) (PostToken.mention u d) =
      PostSpan.text (mentionLiteral u d) := by
  rcases hfind : (resolveIdents resolver tokens).find?
      (fun q => q.fst.fst == u && q.fst.snd == d) with _ | q
  · simp [renderToken, hfind]
  · have hq := resolveIdents_lookup resolver tokens u d q hfind
    subst hq
    simp [renderToken, hfind, hf]

/-- Claim C6: identity resolution rejects with NoSelfLink any discovery
response whose resolved actor URI domain differs from the requested
domain, even though the HTTP discovery call succeeded and the response is
otherwise well-formed (it carries a self link). -/
theorem webfinger_rejects_domain_mismatch (user domain : String)
    (links : List WebfingerLink) (l : WebfingerLink)
    (hfind : links.find? (fun l => l.rel == selfRel) = some l)
    (hdom : l.href.domain ≠ domain) :
    Webfinger.resolve user domain (Except.ok links) =
      Except.error WebfingerError.NoSelfLink := by
  simp [Webfinger.resolve, hfind, hdom]

/-- Witness for claim C6 at a concrete spoofed discovery response. -/
theorem webfinger_rejects_domain_mismatch_witness :
    spoofLinks.find? (fun l => l.rel == selfRel) =
      some { rel := selfRel, href := spoofActor } ∧
    spoofActor.domain ≠ exampleDomain ∧
    Webfinger.resolve aliceUser exampleDomain (Except.ok spoofLinks) =
      Except.error WebfingerError.NoSelfLink :=
  ⟨by decide, by decide,
    webfinger_rejects_domain_mismatch aliceUser exampleDomain spoofLinks
      { rel := selfRel, href := spoofActor } (by decide) (by decide)⟩

/-- Claim C7: failure of a single mention resolution is non-fatal: the
post resolve call still succeeds with one span per token, and the failed
mention is retained as its literal text in the span list. -/
theorem postResolver_failure_nonfatal
    (resolver : String → String → Except String ActorUri)
    (tokens : List PostToken) (i : Nat) (u d : String)
    (hi : tokens[i]? = some (PostToken.mention u d))
    (hf : (resolver u d).toOption = none) :
    ∃ spans, PostResolver.resolve resolver tokens = Except.ok spans ∧
      spans.length = tokens.length ∧
      spans[i]? = some (PostSpan.text (mentionLiteral u d)) := by
  refine ⟨_, rfl, by simp, ?_⟩
  rw [List.getElem?_map, hi, Option.map_some']
  rw [renderToken_failed_mention resolver tokens u d hf]

/-- Witness for claim C7: a concrete post whose second mention cannot be
resolved. -/
theorem postResolver_failure_nonfatal_witness :
    demoTokens[3]? = some (PostToken.mention bobUser unreachableDomain) ∧
    (demoResolver bobUser unreachableDomain).toOption = none ∧
    ∃ spans, PostResolver.resolve demoResolver demoTokens = Except.ok spans ∧
      spans.length = demoTokens.length ∧
      spans[3]? = some (PostSpan.text
        (mentionLiteral bobUser unreachableDomain)) :=
  ⟨by decide, by decide,
    postResolver_failure_nonfatal demoResolver demoTokens 3 bobUser
      unreachableDomain (by decide) (by decide)⟩
